import Mathlib

/-!
Verification of the Honeycomb Hex Layout Engine (`HexPattern/HexPattern.py`).

The numeric code is embedded over an arbitrary linearly ordered field `F`,
with the value `math.sqrt(3)` passed as an explicit parameter `s3`; general
theorems assume `s3 ^ 2 = 3` and `0 < s3`, and concrete instances take
`F := ℝ`, `s3 := Real.sqrt 3`.  The unbounded `while` loops of
`_calculate_hex_layout` become fuel-indexed recursions returning `Option`
(`none` = fuel exhausted); termination is then the statement that some fuel
suffices.
-/

namespace HexPattern

variable {F : Type*} [LinearOrderedField F]

/-- The error raised by `_calculate_hex_layout` (lines 189 and 202):
`RuntimeError(f"Hexagon margin too large for face width with {num_x} hexagons.")`.
The message's only varying datum is the attempted hex count, recorded here. -/
inductive LayoutError where
  | marginTooLarge (numX : ℕ)
deriving DecidableEq

/-- The dimension quantities solved at lines 177-206 of the source. -/
structure HexDims (F : Type*) where
  radius : F
  hexWidth : F
  hexHeight : F
  rowSpacing : F
  colSpacing : F
deriving DecidableEq

/-- Lines 177-206 of `_calculate_hex_layout`: solve hexagon dimensions from
face width, count, margin and orientation.  `pointyTop = true` is the
source's flat-top branch (the Python parameter has the same inversion). -/
def solveDims (s3 faceWidth : F) (numX : ℕ) (margin : F) (pointyTop : Bool) :
    Except LayoutError (HexDims F) :=
  if pointyTop then
    -- Flat-top hex: radius = (face_width - (num_x - 1) * margin) / (3 * num_x - 1)
    let radius := (faceWidth - ((numX : F) - 1) * margin) / (3 * (numX : F) - 1)
    if radius ≤ 0 then .error (.marginTooLarge numX)
    else
      let hexWidth := 2 * radius
      let hexHeight := s3 * radius
      let rowSpacing := 0.5 * hexHeight + margin * 0.5
      let colSpacing := 3 * radius + margin
      .ok ⟨radius, hexWidth, hexHeight, rowSpacing, colSpacing⟩
  else
    -- Pointy-top hex: hex_width = (face_width - (num_x - 1) * margin) / num_x
    let hexWidth := (faceWidth - ((numX : F) - 1) * margin) / (numX : F)
    if hexWidth ≤ 0 then .error (.marginTooLarge numX)
    else
      let radius := hexWidth / s3
      let hexHeight := 2 * radius
      let rowSpacing := 0.75 * hexHeight + margin * s3 / 2
      let colSpacing := hexWidth + margin
      .ok ⟨radius, hexWidth, hexHeight, rowSpacing, colSpacing⟩

/-- `_calculate_hex_width` (lines 307-321): the display helper that recomputes
the hex width, returning 0 when the margin is too large. -/
def calculateHexWidth (faceWidth : F) (numX : ℕ) (margin : F) (pointyTop : Bool) : F :=
  if pointyTop then
    let radius := (faceWidth - ((numX : F) - 1) * margin) / (3 * (numX : F) - 1)
    if radius ≤ 0 then 0 else 2 * radius
  else
    let hexWidth := (faceWidth - ((numX : F) - 1) * margin) / (numX : F)
    if hexWidth ≤ 0 then 0 else hexWidth

/-- The loop-invariant data of the center-generation phase
(lines 208-236 of `_calculate_hex_layout`). -/
structure TileParams (F : Type*) where
  allowPartial : Bool
  numX : ℕ
  rowSpacing : F
  colSpacing : F
  rowXOffset : F
  hexHalfWidth : F
  hexHalfHeight : F
  minX : F
  maxX : F
  minY : F
  maxY : F
  startX : F
  startY : F
  yDir : F

/-- Lines 208-236: derived loop constants (odd-row offset, face bounds,
start coordinates and growth direction). -/
def layoutParams (faceWidth faceHeight : F) (numX : ℕ) (d : HexDims F)
    (startFromMinY allowPartial : Bool) : TileParams F :=
  { allowPartial := allowPartial
    numX := numX
    rowSpacing := d.rowSpacing
    colSpacing := d.colSpacing
    rowXOffset := d.colSpacing / 2
    hexHalfWidth := d.hexWidth / 2
    hexHalfHeight := d.hexHeight / 2
    minX := -faceWidth / 2
    maxX := faceWidth / 2
    minY := -faceHeight / 2
    maxY := faceHeight / 2
    startX := -faceWidth / 2 + d.hexWidth / 2
    startY := if startFromMinY then -faceHeight / 2 + d.hexHeight / 2
              else faceHeight / 2 - d.hexHeight / 2
    yDir := if startFromMinY then 1 else -1 }

/-- Lines 291-300: the full-hex column loop `while col < num_x`, breaking when
a hex's right edge would extend beyond the face.  `remaining` is
`num_x - col`, the structural bound of the `while` counter. -/
def fullCols (P : TileParams F) (xOffset : F) : ℕ → ℕ → List F
  | _, 0 => []
  | col, remaining + 1 =>
    let x := P.startX + (col : F) * P.colSpacing + xOffset
    if x + P.hexHalfWidth > P.maxX + 0.001 then []
    else x :: fullCols P xOffset (col + 1) remaining

/-- A full-mode row: the column positions paired with the row's `y`. -/
def fullRow (P : TileParams F) (y xOffset : F) : List (F × F) :=
  (fullCols P xOffset 0 P.numX).map (fun x => (x, y))

/-- Lines 279-288: the unbounded partial-mode column loop, with fuel. -/
def partialCols (P : TileParams F) (y xOffset : F) : ℕ → ℕ → Option (List (F × F))
  | 0, _ => none
  | fuel + 1, col =>
    let x := P.startX + (col : F) * P.colSpacing + xOffset
    if x - P.hexHalfWidth > P.maxX + 0.001 then some []
    else (partialCols P y xOffset fuel (col + 1)).map ((x, y) :: ·)

/-- Lines 272-288: a partial-mode row; one extra hex before the starting
column when its right edge is visible, then the unbounded column loop. -/
def partialRow (P : TileParams F) (cfuel : ℕ) (y xOffset : F) : Option (List (F × F)) :=
  (partialCols P y xOffset cfuel 0).map (fun cols =>
    let leftHexX := P.startX + xOffset - P.colSpacing
    if leftHexX + P.hexHalfWidth > P.minX - 0.001 then (leftHexX, y) :: cols else cols)

/-- Lines 238-302: the unbounded row loop, one fuel unit per iteration.
Produces the list of rows (the source appends them into one list; the
flat list is recovered with `List.join`). -/
def genRows (P : TileParams F) (cfuel : ℕ) : ℕ → ℤ → Option (List (List (F × F)))
  | 0, _ => none
  | rfuel + 1, row =>
    let y := P.startY + (row : F) * P.rowSpacing * P.yDir
    let xOffset := if row.natAbs % 2 = 1 then P.rowXOffset else 0
    if P.allowPartial then
      if 0 < P.yDir then
        if y - P.hexHalfHeight > P.maxY + 0.001 then some []
        else if y + P.hexHalfHeight < P.minY - 0.001 then genRows P cfuel rfuel (row + 1)
        else
          match partialRow P cfuel y xOffset with
          | none => none
          | some r => (genRows P cfuel rfuel (row + 1)).map (r :: ·)
      else
        if y + P.hexHalfHeight < P.minY - 0.001 then some []
        else if y - P.hexHalfHeight > P.maxY + 0.001 then genRows P cfuel rfuel (row + 1)
        else
          match partialRow P cfuel y xOffset with
          | none => none
          | some r => (genRows P cfuel rfuel (row + 1)).map (r :: ·)
    else
      if 0 < P.yDir then
        if y + P.hexHalfHeight > P.maxY + 0.001 then some []
        else (genRows P cfuel rfuel (row + 1)).map (fullRow P y xOffset :: ·)
      else
        if y - P.hexHalfHeight < P.minY - 0.001 then some []
        else (genRows P cfuel rfuel (row + 1)).map (fullRow P y xOffset :: ·)

/-- `_calculate_hex_layout` end to end: solve dimensions (raising
`marginTooLarge` with no output) and generate the centers with the given
fuels.  `none` means the fuel was exhausted. -/
def calculateHexLayout (s3 faceWidth faceHeight : F) (numX : ℕ) (margin : F)
    (pointyTop startFromMinY allowPartial : Bool) (rfuel cfuel : ℕ) :
    Option (Except LayoutError (F × List (F × F) × Bool)) :=
  match solveDims s3 faceWidth numX margin pointyTop with
  | .error e => some (.error e)
  | .ok d =>
    let P := layoutParams faceWidth faceHeight numX d startFromMinY allowPartial
    let firstRow : ℤ := if allowPartial then -1 else 0
    match genRows P cfuel rfuel firstRow with
    | none => none
    | some rows => some (.ok (d.radius, rows.flatten, pointyTop))

/-- Line 402: `expected_area = 3 * math.sqrt(3) / 2 * radius * radius`. -/
def expectedHexArea (s3 radius : F) : F := 3 * s3 / 2 * radius * radius

/-- Lines 405-412: a profile is kept when `min_area < area <= max_area` with
`min_area = expected_area * 0.03` and `max_area = expected_area * 1.1`. -/
def profileAccepted (s3 radius area : F) : Prop :=
  expectedHexArea s3 radius * 0.03 < area ∧ area ≤ expectedHexArea s3 radius * 1.1

instance (s3 radius area : F) : Decidable (profileAccepted s3 radius area) := by
  unfold profileAccepted; infer_instance

/-- Lines 408-415: the classifier loop over the closed regions' areas,
returning the indices of the accepted ones. -/
def classifyRegions (s3 radius : F) (areas : List F) : List ℕ :=
  (List.range areas.length).filter fun i =>
    decide (profileAccepted s3 radius (areas.getD i 0))

/-- Lines 362-367: vertex offset `i` of a hexagon
(`angle = i*π/3` for the flat-top branch, `π/2 + i*π/3` otherwise). -/
noncomputable def hexOffset (pointyTop : Bool) (radius : ℝ) (i : ℕ) : ℝ × ℝ :=
  let angle : ℝ :=
    if pointyTop then (i : ℝ) * Real.pi / 3 else Real.pi / 2 + (i : ℝ) * Real.pi / 3
  (radius * Real.cos angle, radius * Real.sin angle)

/-- Lines 378-387: a segment endpoint in sketch coordinates, from the sketch
center `(ox, oy)`, the hex center `(cx, cy)` and vertex offset `i`. -/
noncomputable def emitEndpoint (pointyTop axisAligned : Bool) (ox oy cx cy radius : ℝ)
    (i : ℕ) : ℝ × ℝ :=
  let h := hexOffset pointyTop radius i
  if axisAligned then (ox + cx + h.1, oy + cy + h.2)
  else (ox + cy + h.2, oy + cx - h.1)

/-- The 90-degree rotation `(x, y) ↦ (y, -x)` the specification describes for
the `axisAligned = false` remapping. -/
def rot90 (p : ℝ × ℝ) : ℝ × ℝ := (p.2, -p.1)

/-! ### Inversion lemmas for the dimension solver -/

lemma solveDims_pointy_ok {s3 faceWidth margin : F} {numX : ℕ} {d : HexDims F}
    (h : solveDims s3 faceWidth numX margin false = .ok d) :
    0 < d.hexWidth ∧ d.hexWidth = (faceWidth - ((numX : F) - 1) * margin) / (numX : F) ∧
    d.radius = d.hexWidth / s3 ∧ d.hexHeight = 2 * d.radius ∧
    d.rowSpacing = 0.75 * d.hexHeight + margin * s3 / 2 ∧
    d.colSpacing = d.hexWidth + margin := by
  simp only [solveDims, Bool.false_eq_true, if_false] at h
  split_ifs at h with h0
  obtain rfl := Except.ok.inj h
  exact ⟨not_le.mp h0, rfl, rfl, rfl, rfl, rfl⟩

lemma solveDims_flat_ok {s3 faceWidth margin : F} {numX : ℕ} {d : HexDims F}
    (h : solveDims s3 faceWidth numX margin true = .ok d) :
    0 < d.radius ∧ d.radius = (faceWidth - ((numX : F) - 1) * margin) / (3 * (numX : F) - 1) ∧
    d.hexWidth = 2 * d.radius ∧ d.hexHeight = s3 * d.radius ∧
    d.rowSpacing = 0.5 * d.hexHeight + margin * 0.5 ∧
    d.colSpacing = 3 * d.radius + margin := by
  simp only [solveDims, if_true] at h
  split_ifs at h with h0
  obtain rfl := Except.ok.inj h
  exact ⟨not_le.mp h0, rfl, rfl, rfl, rfl, rfl⟩

lemma solveDims_ok_radius_pos {s3 faceWidth margin : F} {numX : ℕ} {pointyTop : Bool}
    {d : HexDims F} (hs3 : 0 < s3)
    (h : solveDims s3 faceWidth numX margin pointyTop = .ok d) : 0 < d.radius := by
  cases pointyTop
  · obtain ⟨hw, -, hr, -, -, -⟩ := solveDims_pointy_ok h
    rw [hr]; positivity
  · exact (solveDims_flat_ok h).1

/-! ### Claim theorems: dimension solver (C4, C5, C6, C9) -/

/-- C5: the dimension solver computes exactly the stated formulas — for
pointy-top, `hexWidth = (faceWidth - (numX-1)·margin)/numX`,
`radius = hexWidth/√3`, `hexHeight = 2·radius`,
`rowSpacing = 0.75·hexHeight + margin·√3/2`, `colSpacing = hexWidth + margin`
(so with `margin = 0`, `numX·hexWidth = faceWidth`); for flat-top,
`radius = (faceWidth - (numX-1)·margin)/(3·numX - 1)`, `hexWidth = 2·radius`,
`hexHeight = √3·radius`, `rowSpacing = 0.5·hexHeight + 0.5·margin`,
`colSpacing = 3·radius + margin` (so `margin = 0`, `numX = 5`,
`faceWidth = 10` gives `radius = 10/14`). -/
theorem solveDims_formulas (s3 faceWidth margin : F) (numX : ℕ) (hn : 1 ≤ numX) :
    (∀ d : HexDims F, solveDims s3 faceWidth numX margin false = .ok d →
      d.hexWidth = (faceWidth - ((numX : F) - 1) * margin) / (numX : F) ∧
      d.radius = d.hexWidth / s3 ∧ d.hexHeight = 2 * d.radius ∧
      d.rowSpacing = 0.75 * d.hexHeight + margin * s3 / 2 ∧
      d.colSpacing = d.hexWidth + margin ∧
      (margin = 0 → (numX : F) * d.hexWidth = faceWidth)) ∧
    (∀ d : HexDims F, solveDims s3 faceWidth numX margin true = .ok d →
      d.radius = (faceWidth - ((numX : F) - 1) * margin) / (3 * (numX : F) - 1) ∧
      d.hexWidth = 2 * d.radius ∧ d.hexHeight = s3 * d.radius ∧
      d.rowSpacing = 0.5 * d.hexHeight + margin * 0.5 ∧
      d.colSpacing = 3 * d.radius + margin) ∧
    (solveDims s3 (10 : F) 5 0 true).map HexDims.radius = .ok (10 / 14) := by
  have hnF : (0 : F) < (numX : F) := by exact_mod_cast Nat.pos_of_ne_zero (by omega)
  refine ⟨?_, ?_, ?_⟩
  · intro d h
    obtain ⟨-, h1, h2, h3, h4, h5⟩ := solveDims_pointy_ok h
    refine ⟨h1, h2, h3, h4, h5, ?_⟩
    intro hm0
    rw [h1, hm0]
    field_simp
  · intro d h
    obtain ⟨-, h1, h2, h3, h4, h5⟩ := solveDims_flat_ok h
    exact ⟨h1, h2, h3, h4, h5⟩
  · simp only [solveDims, if_true]
    norm_num [Except.map]

/-- C5 witness: the flat-top concrete instance `faceWidth = 10`, `numX = 5`,
`margin = 0` has `radius = 10/14`, by `solveDims_formulas` over `ℝ`. -/
theorem solveDims_formulas_witness :
    (solveDims (Real.sqrt 3) (10 : ℝ) 5 0 true).map HexDims.radius = .ok (10 / 14) :=
  (solveDims_formulas (Real.sqrt 3) 10 0 5 (by norm_num)).2.2

/-- C6: the solver fails with the margin-too-large error, recording the
attempted hex count, exactly when the solved hexagon size is non-positive
(`hexWidth ≤ 0` pointy-top, `radius ≤ 0` flat-top); `faceWidth = 1`,
`numX = 10`, `margin = 1` fails this way; and on failure the layout emits the
error with no centers. -/
theorem invalidMargin_spec (s3 faceWidth margin : F) (numX : ℕ) (pointyTop : Bool) :
    (∀ e, solveDims s3 faceWidth numX margin pointyTop = .error e →
      e = .marginTooLarge numX) ∧
    (solveDims s3 faceWidth numX margin pointyTop = .error (.marginTooLarge numX) ↔
      (if pointyTop then (faceWidth - ((numX : F) - 1) * margin) / (3 * (numX : F) - 1) ≤ 0
       else (faceWidth - ((numX : F) - 1) * margin) / (numX : F) ≤ 0)) ∧
    (∀ e (faceHeight : F) (startFromMinY allowPartial : Bool) (rfuel cfuel : ℕ),
      solveDims s3 faceWidth numX margin pointyTop = .error e →
      calculateHexLayout s3 faceWidth faceHeight numX margin pointyTop startFromMinY
        allowPartial rfuel cfuel = some (.error e)) ∧
    solveDims s3 (1 : F) 10 (1 : F) pointyTop = .error (.marginTooLarge 10) := by
  refine ⟨?_, ?_, ?_, ?_⟩
  · intro e h
    cases pointyTop <;>
      simp only [solveDims, Bool.false_eq_true, if_false, if_true] at h <;>
      split_ifs at h <;>
      exact (Except.error.inj h).symm
  · cases pointyTop <;>
      simp only [solveDims, Bool.false_eq_true, if_false, if_true] <;>
      split_ifs with h0 <;> simp [h0]
  · intro e faceHeight startFromMinY allowPartial rfuel cfuel h
    rw [calculateHexLayout, h]
  · cases pointyTop <;>
      simp only [solveDims, Bool.false_eq_true, if_false, if_true] <;> norm_num

/-- C6 witness: at `faceWidth = 1`, `numX = 10`, `margin = 1` (pointy-top,
over `ℝ`) the solver reports the margin-too-large error carrying the count
10, by `invalidMargin_spec`. -/
theorem invalidMargin_spec_witness :
    solveDims (Real.sqrt 3) (1 : ℝ) 10 (1 : ℝ) false = .error (.marginTooLarge 10) :=
  (invalidMargin_spec (Real.sqrt 3) (1 : ℝ) 1 10 false).2.2.2

/-- C9: the display helper `_calculate_hex_width` agrees with the layout
solver — whenever `solveDims` succeeds it returns exactly the solved
`hexWidth`, and it returns 0 exactly on the inputs where `solveDims` raises
the margin-too-large error. -/
theorem hexWidth_agrees (s3 faceWidth margin : F) (numX : ℕ) (pointyTop : Bool)
    (hn : 1 ≤ numX) :
    (∀ d : HexDims F, solveDims s3 faceWidth numX margin pointyTop = .ok d →
      calculateHexWidth faceWidth numX margin pointyTop = d.hexWidth) ∧
    (calculateHexWidth faceWidth numX margin pointyTop = 0 ↔
      ∃ e, solveDims s3 faceWidth numX margin pointyTop = .error e) := by
  constructor
  · intro d h
    cases pointyTop
    · obtain ⟨hpos, h1, -, -, -, -⟩ := solveDims_pointy_ok h
      simp only [solveDims, Bool.false_eq_true, if_false] at h
      simp only [calculateHexWidth, Bool.false_eq_true, if_false]
      split_ifs at h with h0
      rw [if_neg h0, h1]
    · obtain ⟨hpos, h1, h2, -, -, -⟩ := solveDims_flat_ok h
      simp only [solveDims, if_true] at h
      simp only [calculateHexWidth, if_true]
      split_ifs at h with h0
      rw [if_neg h0, h2, h1]
  · cases pointyTop
    · simp only [calculateHexWidth, solveDims, Bool.false_eq_true, if_false]
      split_ifs with h0
      · simp
      · constructor
        · intro hzero
          exact absurd hzero (ne_of_gt (not_le.mp h0))
        · rintro ⟨e, he⟩
          exact absurd he (by simp)
    · simp only [calculateHexWidth, solveDims, if_true]
      split_ifs with h0
      · simp
      · constructor
        · intro hzero
          have hpos : (0 : F)
              < 2 * ((faceWidth - ((numX : F) - 1) * margin) / (3 * (numX : F) - 1)) := by
            have := not_le.mp h0; linarith
          exact absurd hzero (ne_of_gt hpos)
        · rintro ⟨e, he⟩
          exact absurd he (by simp)

/-- C9 witness: at `faceWidth = 10`, `numX = 5`, `margin = 0` (pointy-top,
over `ℝ`) the helper returns the layout's hex width 2, by
`hexWidth_agrees`. -/
theorem hexWidth_agrees_witness : calculateHexWidth (10 : ℝ) 5 0 false = 2 := by
  have h : solveDims (Real.sqrt 3) (10 : ℝ) 5 0 false =
      .ok ⟨2 / Real.sqrt 3, 2, 2 * (2 / Real.sqrt 3),
        0.75 * (2 * (2 / Real.sqrt 3)) + 0 * Real.sqrt 3 / 2, 2 + 0⟩ := by
    rw [solveDims, if_neg Bool.false_ne_true]
    norm_num
  simpa using (hexWidth_agrees (Real.sqrt 3) (10 : ℝ) 0 5 false (by norm_num)).1 _ h

/-- C4 counterexample: with `numX = 1` the margin does not appear in the
radius formula, so raising the margin from 0 to 1 (with `faceWidth = 1`,
pointy-top, both solves succeeding) leaves the radius unchanged at `1/√3`
instead of strictly decreasing it. -/
theorem radius_margin_numX1_cex :
    (solveDims (Real.sqrt 3) (1 : ℝ) 1 1 false).map HexDims.radius
        = .ok (1 / Real.sqrt 3) ∧
    (solveDims (Real.sqrt 3) (1 : ℝ) 1 0 false).map HexDims.radius
        = .ok (1 / Real.sqrt 3) := by
  constructor <;> rw [solveDims, if_neg Bool.false_ne_true] <;> norm_num [Except.map]

/-- C4 amended: for fixed `faceWidth > 0` and either orientation, increasing
the margin from 0 to a positive value (both solves succeeding) strictly
decreases the radius when `numX ≥ 2`, and leaves it unchanged when
`numX = 1`. -/
theorem radius_margin_mono (s3 faceWidth margin : F) (numX : ℕ) (pointyTop : Bool)
    (d d0 : HexDims F) (hs3 : 0 < s3) (hfw : 0 < faceWidth) (hm : 0 < margin)
    (hd : solveDims s3 faceWidth numX margin pointyTop = .ok d)
    (hd0 : solveDims s3 faceWidth numX 0 pointyTop = .ok d0) :
    (2 ≤ numX → d.radius < d0.radius) ∧ (numX = 1 → d.radius = d0.radius) := by
  cases pointyTop
  · obtain ⟨-, hw, hr, -, -, -⟩ := solveDims_pointy_ok hd
    obtain ⟨-, hw0, hr0, -, -, -⟩ := solveDims_pointy_ok hd0
    constructor
    · intro hn2
      have hnF : (0 : F) < (numX : F) := by exact_mod_cast (by omega : 0 < numX)
      have h1 : (1 : F) ≤ (numX : F) - 1 := by
        have h2 : (2 : F) ≤ (numX : F) := by exact_mod_cast hn2
        linarith
      rw [hr, hr0, hw, hw0]
      gcongr
    · intro hn1
      subst hn1
      rw [hr, hr0, hw, hw0]
      norm_num
  · obtain ⟨-, hr, -, -, -, -⟩ := solveDims_flat_ok hd
    obtain ⟨-, hr0, -, -, -, -⟩ := solveDims_flat_ok hd0
    constructor
    · intro hn2
      have h2 : (2 : F) ≤ (numX : F) := by exact_mod_cast hn2
      have hden : (0 : F) < 3 * (numX : F) - 1 := by linarith
      rw [hr, hr0]
      gcongr
      nlinarith
    · intro hn1
      subst hn1
      rw [hr, hr0]
      norm_num

/-! ### Claim theorems: region classifier (C1) and boundary emitter (C2) -/

/-- C1 counterexample: the code's acceptance window does not tighten to
`(0.1·expected, 1.1·expected]` in full-hex-only mode.  With `radius = 1`, a
region of area `0.05·expected` is accepted by the code (index 0 kept), yet
`0.05·expected` is not strictly above `0.1·expected`, so the claimed
full-hex-mode window would discard it. -/
theorem classifyRegions_fullHexBound_cex :
    0 ∈ classifyRegions (Real.sqrt 3) 1 [expectedHexArea (Real.sqrt 3) 1 * 0.05] ∧
    ¬ (expectedHexArea (Real.sqrt 3) 1 * 0.1 < expectedHexArea (Real.sqrt 3) 1 * 0.05) := by
  have he : (0 : ℝ) < expectedHexArea (Real.sqrt 3) 1 := by
    have h3 : (0 : ℝ) < Real.sqrt 3 := Real.sqrt_pos.mpr (by norm_num)
    unfold expectedHexArea
    nlinarith
  constructor
  · have h1 : expectedHexArea (Real.sqrt 3) 1 * 0.03
        < expectedHexArea (Real.sqrt 3) 1 * 0.05 := by nlinarith
    have h2 : expectedHexArea (Real.sqrt 3) 1 * 0.05
        ≤ expectedHexArea (Real.sqrt 3) 1 * 1.1 := by nlinarith
    simp [classifyRegions, profileAccepted, h1, h2]
  · nlinarith

/-- C1 amended: a region's index is accepted exactly when its area lies in
`(0.03·expected, 1.1·expected]`, with the lower bound `0.03·expected`
regardless of the partial-hex mode (the classifier takes no mode input). -/
theorem classifyRegions_window (s3 radius : F) (areas : List F) (i : ℕ) :
    i ∈ classifyRegions s3 radius areas ↔
      i < areas.length ∧ expectedHexArea s3 radius * 0.03 < areas.getD i 0 ∧
        areas.getD i 0 ≤ expectedHexArea s3 radius * 1.1 := by
  simp [classifyRegions, List.mem_filter, List.mem_range, profileAccepted, and_assoc]

/-- C2 counterexample: for the hex center `(1, 0)`, `radius = 1`, vertex 0 of
the flat-top branch and zero frame origin, the endpoint emitted with
`axisAligned = false` is `(0, 0)`, which is not the 90-degree rotation
`(0, -2)` of the `axisAligned = true` endpoint `(2, 0)`: the rotation is not
applied to the whole local point. -/
theorem emitEndpoint_rot_cex :
    emitEndpoint true false 0 0 1 0 1 0 ≠ rot90 (emitEndpoint true true 0 0 1 0 1 0) := by
  simp only [emitEndpoint, hexOffset, rot90, if_true, Bool.false_eq_true, if_false,
    Nat.cast_zero, zero_mul, zero_div, Real.cos_zero, Real.sin_zero, ne_eq, Prod.ext_iff,
    not_and]
  intro h1
  norm_num

/-- C2 amended: the endpoint emitted with `axisAligned = false` equals the
90-degree rotation `(x, y) ↦ (y, -x)` (before adding the frame origin) of
the endpoint the aligned branch emits for the center mirrored in the
count axis, `(cx, cy) ↦ (-cx, cy)`: the rotation acts on the vertex offset
and on the height coordinate, but the count-axis center offset enters with
the opposite sign.  (The claim's unmirrored form holds exactly when
`cx = 0`.) -/
theorem emitEndpoint_unaligned_eq (pointyTop : Bool) (ox oy cx cy radius : ℝ) (i : ℕ) :
    emitEndpoint pointyTop false ox oy cx cy radius i =
      (ox + (rot90 (emitEndpoint pointyTop true 0 0 (-cx) cy radius i)).1,
       oy + (rot90 (emitEndpoint pointyTop true 0 0 (-cx) cy radius i)).2) := by
  simp only [emitEndpoint, rot90, if_true, Bool.false_eq_true, if_false, Prod.ext_iff]
  constructor <;> ring

/-! ### Structural lemmas for the tiling generator -/

lemma fullCols_length_le (P : TileParams F) (xOffset : F) :
    ∀ r col, (fullCols P xOffset col r).length ≤ r := by
  intro r
  induction r with
  | zero => intro col; simp [fullCols]
  | succ n ih =>
    intro col
    simp only [fullCols]
    split_ifs
    · simp
    · simpa using ih (col + 1)

lemma fullCols_mem (P : TileParams F) (xOffset : F) :
    ∀ r col x, x ∈ fullCols P xOffset col r →
      ∃ k, k < r ∧ x = P.startX + ((col + k : ℕ) : F) * P.colSpacing + xOffset ∧
        x + P.hexHalfWidth ≤ P.maxX + 0.001 := by
  intro r
  induction r with
  | zero => intro col x hx; simp [fullCols] at hx
  | succ n ih =>
    intro col x hx
    simp only [fullCols] at hx
    split_ifs at hx with hbreak
    · simp at hx
    · rcases List.mem_cons.mp hx with rfl | hx'
      · exact ⟨0, by omega, by norm_num, not_lt.mp hbreak⟩
      · obtain ⟨k, hk, hxeq, hle⟩ := ih (col + 1) x hx'
        have hcast : col + 1 + k = col + (k + 1) := by omega
        exact ⟨k + 1, by omega, by rw [hxeq, hcast], hle⟩

lemma fullCols_length_full (P : TileParams F) (xOffset : F) :
    ∀ r col, (∀ k, k < r → P.startX + ((col + k : ℕ) : F) * P.colSpacing + xOffset
        + P.hexHalfWidth ≤ P.maxX + 0.001) →
      (fullCols P xOffset col r).length = r := by
  intro r
  induction r with
  | zero => intro col _; simp [fullCols]
  | succ n ih =>
    intro col hall
    have h0 : P.startX + (col : F) * P.colSpacing + xOffset + P.hexHalfWidth
        ≤ P.maxX + 0.001 := by
      have h := hall 0 (by omega)
      simpa using h
    simp only [fullCols]
    rw [if_neg (not_lt.mpr h0), List.length_cons, ih (col + 1) ?_]
    intro k hk
    have h := hall (k + 1) (by omega)
    have hcast : col + 1 + k = col + (k + 1) := by omega
    rw [hcast]
    exact h

lemma dims_pos {s3 faceWidth margin : F} {numX : ℕ} {pointyTop : Bool} {d : HexDims F}
    (hs3 : 0 < s3) (hm : 0 ≤ margin)
    (hd : solveDims s3 faceWidth numX margin pointyTop = .ok d) :
    0 < d.radius ∧ 0 < d.hexWidth ∧ 0 < d.hexHeight ∧ 0 < d.rowSpacing ∧ 0 < d.colSpacing := by
  cases pointyTop
  · obtain ⟨hwpos, hw, hr, hh, hrs, hcs⟩ := solveDims_pointy_ok hd
    have hrpos : 0 < d.radius := by rw [hr]; positivity
    refine ⟨hrpos, hwpos, ?_, ?_, ?_⟩
    · rw [hh]; linarith
    · rw [hrs, hh]; nlinarith [mul_nonneg hm hs3.le]
    · rw [hcs]; linarith
  · obtain ⟨hrpos, hr, hw, hh, hrs, hcs⟩ := solveDims_flat_ok hd
    refine ⟨hrpos, ?_, ?_, ?_, ?_⟩
    · rw [hw]; linarith
    · rw [hh]; exact mul_pos hs3 hrpos
    · rw [hrs, hh]; nlinarith
    · rw [hcs]; linarith

lemma x_fit {s3 faceWidth margin : F} {numX : ℕ} {pointyTop : Bool} {d : HexDims F}
    (hn : 1 ≤ numX) (hm : 0 ≤ margin)
    (hd : solveDims s3 faceWidth numX margin pointyTop = .ok d) :
    ∀ k : ℕ, k < numX →
      -faceWidth / 2 + d.hexWidth / 2 + (k : F) * d.colSpacing + d.hexWidth / 2
        ≤ faceWidth / 2 := by
  intro k hk
  have hkF : (k : F) ≤ (numX : F) - 1 := by
    have h := (Nat.cast_le (α := F)).mpr (by omega : k + 1 ≤ numX)
    push_cast at h
    linarith
  have hc : (0 : F) ≤ (numX : F) - 1 - (k : F) := by linarith
  cases pointyTop
  · obtain ⟨hwpos, hw, -, -, -, hcs⟩ := solveDims_pointy_ok hd
    have hnF : (0 : F) < (numX : F) := by exact_mod_cast (by omega : 0 < numX)
    have hid : (numX : F) * d.hexWidth + ((numX : F) - 1) * margin = faceWidth := by
      rw [hw]
      field_simp
    rw [hcs]
    nlinarith [mul_nonneg hc hwpos.le, mul_nonneg hc hm]
  · obtain ⟨hrpos, hr, hw, -, -, hcs⟩ := solveDims_flat_ok hd
    have hnF : (2 : F) ≤ 3 * (numX : F) - 1 := by
      have h := (Nat.cast_le (α := F)).mpr hn
      push_cast at h
      linarith
    have hid : (3 * (numX : F) - 1) * d.radius + ((numX : F) - 1) * margin = faceWidth := by
      rw [hr]
      field_simp
    rw [hcs, hw]
    nlinarith [mul_nonneg hc hrpos.le, mul_nonneg hc hm]

lemma genRows_full_stop_up (P : TileParams F) (cfuel rfuel : ℕ) (row : ℤ)
    (hap : P.allowPartial = false) (hdir : 0 < P.yDir)
    (h : P.maxY + 0.001 < P.startY + (row : F) * P.rowSpacing * P.yDir + P.hexHalfHeight) :
    genRows P cfuel (rfuel + 1) row = some [] := by
  simp only [genRows, hap, Bool.false_eq_true, if_false, if_pos hdir, if_pos h]

lemma genRows_full_cont_up (P : TileParams F) (cfuel rfuel : ℕ) (row : ℤ)
    (hap : P.allowPartial = false) (hdir : 0 < P.yDir)
    (h : P.startY + (row : F) * P.rowSpacing * P.yDir + P.hexHalfHeight ≤ P.maxY + 0.001) :
    genRows P cfuel (rfuel + 1) row =
      (genRows P cfuel rfuel (row + 1)).map
        (fullRow P (P.startY + (row : F) * P.rowSpacing * P.yDir)
          (if row.natAbs % 2 = 1 then P.rowXOffset else 0) :: ·) := by
  simp only [genRows, hap, Bool.false_eq_true, if_false, if_pos hdir, if_neg (not_lt.mpr h)]

lemma genRows_full_stop_down (P : TileParams F) (cfuel rfuel : ℕ) (row : ℤ)
    (hap : P.allowPartial = false) (hdir : ¬ 0 < P.yDir)
    (h : P.startY + (row : F) * P.rowSpacing * P.yDir - P.hexHalfHeight < P.minY - 0.001) :
    genRows P cfuel (rfuel + 1) row = some [] := by
  simp only [genRows, hap, Bool.false_eq_true, if_false, if_neg hdir, if_pos h]

lemma genRows_full_cont_down (P : TileParams F) (cfuel rfuel : ℕ) (row : ℤ)
    (hap : P.allowPartial = false) (hdir : ¬ 0 < P.yDir)
    (h : P.minY - 0.001 ≤ P.startY + (row : F) * P.rowSpacing * P.yDir - P.hexHalfHeight) :
    genRows P cfuel (rfuel + 1) row =
      (genRows P cfuel rfuel (row + 1)).map
        (fullRow P (P.startY + (row : F) * P.rowSpacing * P.yDir)
          (if row.natAbs % 2 = 1 then P.rowXOffset else 0) :: ·) := by
  simp only [genRows, hap, Bool.false_eq_true, if_false, if_neg hdir, if_neg (not_lt.mpr h)]

lemma genRows_full_mem (P : TileParams F) (hap : P.allowPartial = false) :
    ∀ rfuel cfuel (row : ℤ) rows, genRows P cfuel rfuel row = some rows →
      ∀ r ∈ rows, ∃ row' : ℤ, row ≤ row' ∧
        r = fullRow P (P.startY + (row' : F) * P.rowSpacing * P.yDir)
          (if row'.natAbs % 2 = 1 then P.rowXOffset else 0) ∧
        (0 < P.yDir →
          P.startY + (row' : F) * P.rowSpacing * P.yDir + P.hexHalfHeight
            ≤ P.maxY + 0.001) ∧
        (¬ 0 < P.yDir →
          P.minY - 0.001
            ≤ P.startY + (row' : F) * P.rowSpacing * P.yDir - P.hexHalfHeight) := by
  intro rfuel
  induction rfuel with
  | zero => intro cfuel row rows h; exact absurd h (by simp [genRows])
  | succ n ih =>
    intro cfuel row rows h r hr
    by_cases hdir : 0 < P.yDir
    · by_cases hstop : P.maxY + 0.001
          < P.startY + (row : F) * P.rowSpacing * P.yDir + P.hexHalfHeight
      · rw [genRows_full_stop_up P cfuel n row hap hdir hstop] at h
        obtain rfl := Option.some.inj h
        exact absurd hr (by simp)
      · rw [genRows_full_cont_up P cfuel n row hap hdir (not_lt.mp hstop)] at h
        obtain ⟨rest, hrest, hrows⟩ := Option.map_eq_some'.mp h
        subst hrows
        rcases List.mem_cons.mp hr with rfl | hr'
        · exact ⟨row, le_refl row, rfl, fun _ => not_lt.mp hstop, fun h' => absurd hdir h'⟩
        · obtain ⟨row', hle, hrest'⟩ := ih cfuel (row + 1) rest hrest r hr'
          exact ⟨row', by omega, hrest'⟩
    · by_cases hstop : P.startY + (row : F) * P.rowSpacing * P.yDir - P.hexHalfHeight
          < P.minY - 0.001
      · rw [genRows_full_stop_down P cfuel n row hap hdir hstop] at h
        obtain rfl := Option.some.inj h
        exact absurd hr (by simp)
      · rw [genRows_full_cont_down P cfuel n row hap hdir (not_lt.mp hstop)] at h
        obtain ⟨rest, hrest, hrows⟩ := Option.map_eq_some'.mp h
        subst hrows
        rcases List.mem_cons.mp hr with rfl | hr'
        · exact ⟨row, le_refl row, rfl, fun h' => absurd h' hdir, fun _ => not_lt.mp hstop⟩
        · obtain ⟨row', hle, hrest'⟩ := ih cfuel (row + 1) rest hrest r hr'
          exact ⟨row', by omega, hrest'⟩

lemma fullRow_length (P : TileParams F) (y : F)
    (hall : ∀ k, k < P.numX → P.startX + ((0 + k : ℕ) : F) * P.colSpacing + 0
      + P.hexHalfWidth ≤ P.maxX + 0.001) :
    (fullRow P y 0).length = P.numX := by
  unfold fullRow
  rw [List.length_map]
  exact fullCols_length_full P 0 P.numX 0 hall

/-! ### Claim theorems: tiling generator (C7, C8) -/

/-- C7: with `allowPartial = false`, whenever the solver succeeds, the margin
is non-negative and the face is at least one hexagon tall
(`hexHeight ≤ faceHeight`), the first generated row contains exactly `numX`
centers — the exact-fit width formula keeps every one of the `numX` columns,
including the flush last one, inside the width bound with its 0.001
tolerance. -/
theorem firstRow_count (s3 faceWidth faceHeight margin : F) (numX : ℕ)
    (pointyTop startFromMinY : Bool) (d : HexDims F) (rfuel cfuel : ℕ)
    (rows : List (List (F × F)))
    (hs3 : 0 < s3) (hn : 1 ≤ numX) (hm : 0 ≤ margin) (hfw : 0 < faceWidth)
    (hd : solveDims s3 faceWidth numX margin pointyTop = .ok d)
    (hfh : d.hexHeight ≤ faceHeight)
    (hrows : genRows (layoutParams faceWidth faceHeight numX d startFromMinY false)
      cfuel rfuel 0 = some rows) :
    (rows.map List.length).head? = some numX := by
  set P := layoutParams faceWidth faceHeight numX d startFromMinY false with hP
  have hap : P.allowPartial = false := by rw [hP]; rfl
  have hnum : P.numX = numX := by rw [hP]; rfl
  have htol : (0 : F) ≤ 0.001 := by norm_num
  have hxall : ∀ k, k < P.numX → P.startX + ((0 + k : ℕ) : F) * P.colSpacing + 0
      + P.hexHalfWidth ≤ P.maxX + 0.001 := by
    intro k hk
    rw [hnum] at hk
    have h := x_fit hn hm hd k hk
    have hsx : P.startX = -faceWidth / 2 + d.hexWidth / 2 := by rw [hP]; rfl
    have hcsP : P.colSpacing = d.colSpacing := by rw [hP]; rfl
    have hhwP : P.hexHalfWidth = d.hexWidth / 2 := by rw [hP]; rfl
    have hmaxP : P.maxX = faceWidth / 2 := by rw [hP]; rfl
    rw [hsx, hcsP, hhwP, hmaxP, Nat.zero_add]
    linarith
  cases rfuel with
  | zero => exact absurd hrows (by simp [genRows])
  | succ n =>
    cases startFromMinY
    · have hdir : ¬ 0 < P.yDir := by rw [hP]; norm_num [layoutParams]
      have hsy : P.startY = faceHeight / 2 - d.hexHeight / 2 := by
        rw [hP]; simp [layoutParams]
      have hhhP : P.hexHalfHeight = d.hexHeight / 2 := by rw [hP]; rfl
      have hcheck : P.minY - 0.001
          ≤ P.startY + ((0 : ℤ) : F) * P.rowSpacing * P.yDir - P.hexHalfHeight := by
        have hminP : P.minY = -faceHeight / 2 := by rw [hP]; rfl
        rw [hminP, hsy, hhhP]
        push_cast
        linarith
      rw [genRows_full_cont_down P cfuel n 0 hap hdir hcheck] at hrows
      obtain ⟨rest, hrest, hrowseq⟩ := Option.map_eq_some'.mp hrows
      subst hrowseq
      simp only [List.map_cons, List.head?_cons, Option.some.injEq]
      rw [show (if (0 : ℤ).natAbs % 2 = 1 then P.rowXOffset else 0) = 0 by norm_num]
      rw [fullRow_length P _ hxall, hnum]
    · have hdir : 0 < P.yDir := by rw [hP]; norm_num [layoutParams]
      have hsy : P.startY = -faceHeight / 2 + d.hexHeight / 2 := by
        rw [hP]; simp [layoutParams]
      have hhhP : P.hexHalfHeight = d.hexHeight / 2 := by rw [hP]; rfl
      have hcheck : P.startY + ((0 : ℤ) : F) * P.rowSpacing * P.yDir + P.hexHalfHeight
          ≤ P.maxY + 0.001 := by
        have hmaxP : P.maxY = faceHeight / 2 := by rw [hP]; rfl
        rw [hmaxP, hsy, hhhP]
        push_cast
        linarith
      rw [genRows_full_cont_up P cfuel n 0 hap hdir hcheck] at hrows
      obtain ⟨rest, hrest, hrowseq⟩ := Option.map_eq_some'.mp hrows
      subst hrowseq
      simp only [List.map_cons, List.head?_cons, Option.some.injEq]
      rw [show (if (0 : ℤ).natAbs % 2 = 1 then P.rowXOffset else 0) = 0 by norm_num]
      rw [fullRow_length P _ hxall, hnum]

lemma sqrt3_bounds : (1.7 : ℝ) < Real.sqrt 3 ∧ Real.sqrt 3 < 1.8 := by
  have hsq : Real.sqrt 3 ^ 2 = 3 := Real.sq_sqrt (by norm_num)
  have hs3 : (0 : ℝ) ≤ Real.sqrt 3 := Real.sqrt_nonneg 3
  constructor <;> nlinarith

lemma demoDims : solveDims (Real.sqrt 3) (2 : ℝ) 1 0 true =
    .ok ⟨1, 2, Real.sqrt 3, Real.sqrt 3 / 2, 3⟩ := by
  simp only [solveDims, if_true]
  norm_num [HexDims.mk.injEq]
  ring

lemma demoRows : genRows (layoutParams (2 : ℝ) 2 1 ⟨1, 2, Real.sqrt 3, Real.sqrt 3 / 2, 3⟩
    true false) 0 2 0 = some [[((0 : ℝ), -1 + Real.sqrt 3 / 2)]] := by
  obtain ⟨h17, h18⟩ := sqrt3_bounds
  set P := layoutParams (2 : ℝ) 2 1 (⟨1, 2, Real.sqrt 3, Real.sqrt 3 / 2, 3⟩ : HexDims ℝ)
    true false with hP
  have hap : P.allowPartial = false := by rw [hP]; rfl
  have hdir : 0 < P.yDir := by rw [hP]; norm_num [layoutParams]
  have hc0 : P.startY + ((0 : ℤ) : ℝ) * P.rowSpacing * P.yDir + P.hexHalfHeight
      ≤ P.maxY + 0.001 := by
    rw [hP]
    simp only [layoutParams]
    push_cast
    norm_num
    linarith
  have hc1 : P.maxY + 0.001
      < P.startY + ((0 + 1 : ℤ) : ℝ) * P.rowSpacing * P.yDir + P.hexHalfHeight := by
    rw [hP]
    simp only [layoutParams]
    push_cast
    norm_num
    linarith
  have hstep : genRows P 0 2 0 =
      (genRows P 0 1 (0 + 1)).map
        (fullRow P (P.startY + ((0 : ℤ) : ℝ) * P.rowSpacing * P.yDir)
          (if (0 : ℤ).natAbs % 2 = 1 then P.rowXOffset else 0) :: ·) :=
    genRows_full_cont_up P 0 1 0 hap hdir hc0
  have hstop : genRows P 0 1 (0 + 1) = some [] :=
    genRows_full_stop_up P 0 0 (0 + 1) hap hdir hc1
  rw [hstep, hstop]
  simp only [Option.map_some']
  rw [hP]
  norm_num [fullRow, fullCols, layoutParams]

/-- C7 witness: flat-top, `faceWidth = faceHeight = 2`, `numX = 1`,
`margin = 0` over `ℝ`: the first generated row has exactly 1 center, by
`firstRow_count`. -/
theorem firstRow_count_witness :
    (([[((0 : ℝ), -1 + Real.sqrt 3 / 2)]].map List.length).head? = some 1) := by
  have hs3 : (0 : ℝ) < Real.sqrt 3 := Real.sqrt_pos.mpr (by norm_num)
  have h18 := sqrt3_bounds.2
  exact firstRow_count (Real.sqrt 3) 2 2 0 1 true true _ 2 0 _ hs3 (by norm_num) (by norm_num)
    (by norm_num) demoDims (by dsimp only; linarith) demoRows

/-- C8: with `allowPartial = false`, a non-negative margin and a successful
solve, every center `(x, y)` the layout emits keeps its hexagon inside the
face rectangle up to the 0.001 tolerance —
`x + hexWidth/2 ≤ faceWidth/2 + 0.001`, `x - hexWidth/2 ≥ -faceWidth/2 - 0.001`
and likewise for `y` against `faceHeight/2` — and no row contains more than
`numX` centers. -/
theorem fullMode_bounds (s3 faceWidth faceHeight margin : F) (numX : ℕ)
    (pointyTop startFromMinY : Bool) (d : HexDims F) (rfuel cfuel : ℕ)
    (rows : List (List (F × F)))
    (hs3 : 0 < s3) (hn : 1 ≤ numX) (hm : 0 ≤ margin)
    (hd : solveDims s3 faceWidth numX margin pointyTop = .ok d)
    (hrows : genRows (layoutParams faceWidth faceHeight numX d startFromMinY false)
      cfuel rfuel 0 = some rows) :
    calculateHexLayout s3 faceWidth faceHeight numX margin pointyTop startFromMinY false
        rfuel cfuel = some (.ok (d.radius, rows.flatten, pointyTop)) ∧
    (∀ r ∈ rows, r.length ≤ numX) ∧
    ∀ p ∈ rows.flatten,
      p.1 + d.hexWidth / 2 ≤ faceWidth / 2 + 0.001 ∧
      -faceWidth / 2 - 0.001 ≤ p.1 - d.hexWidth / 2 ∧
      p.2 + d.hexHeight / 2 ≤ faceHeight / 2 + 0.001 ∧
      -faceHeight / 2 - 0.001 ≤ p.2 - d.hexHeight / 2 := by
  obtain ⟨hrpos, hwpos, hhpos, hrspos, hcspos⟩ := dims_pos hs3 hm hd
  set P := layoutParams faceWidth faceHeight numX d startFromMinY false with hP
  have hap : P.allowPartial = false := by rw [hP]; rfl
  have hnum : P.numX = numX := by rw [hP]; rfl
  have hsx : P.startX = -faceWidth / 2 + d.hexWidth / 2 := by rw [hP]; rfl
  have hcsP : P.colSpacing = d.colSpacing := by rw [hP]; rfl
  have hrsP : P.rowSpacing = d.rowSpacing := by rw [hP]; rfl
  have hhwP : P.hexHalfWidth = d.hexWidth / 2 := by rw [hP]; rfl
  have hhhP : P.hexHalfHeight = d.hexHeight / 2 := by rw [hP]; rfl
  have hmaxP : P.maxX = faceWidth / 2 := by rw [hP]; rfl
  have hmaxYP : P.maxY = faceHeight / 2 := by rw [hP]; rfl
  have hminYP : P.minY = -faceHeight / 2 := by rw [hP]; rfl
  have hrxoP : P.rowXOffset = d.colSpacing / 2 := by rw [hP]; rfl
  have htol : (0 : F) ≤ 0.001 := by norm_num
  refine ⟨?_, ?_, ?_⟩
  · simp only [calculateHexLayout, hd, Bool.false_eq_true, if_false, ← hP, hrows]
  · intro r hr
    obtain ⟨row', -, hreq, -, -⟩ := genRows_full_mem P hap rfuel cfuel 0 rows hrows r hr
    rw [hreq, fullRow, List.length_map, ← hnum]
    exact fullCols_length_le P _ P.numX 0
  · intro p hp
    obtain ⟨r, hrmem, hpr⟩ := List.mem_flatten.mp hp
    obtain ⟨row', hrow0, hreq, hup, hdown⟩ :=
      genRows_full_mem P hap rfuel cfuel 0 rows hrows r hrmem
    rw [hreq, fullRow] at hpr
    obtain ⟨x, hx, hpx⟩ := List.mem_map.mp hpr
    obtain ⟨k, hk, hxeq, hxle⟩ := fullCols_mem P _ P.numX 0 x hx
    subst hpx
    dsimp only
    have hxoff : 0 ≤ (if row'.natAbs % 2 = 1 then P.rowXOffset else 0) := by
      split_ifs
      · rw [hrxoP]; linarith
      · exact le_refl 0
    have hkcs : (0 : F) ≤ (k : F) * d.colSpacing :=
      mul_nonneg (Nat.cast_nonneg k) hcspos.le
    rw [hhwP, hmaxP] at hxle
    have hxlow : -faceWidth / 2 + d.hexWidth / 2 ≤ x := by
      rw [hxeq, hsx, hcsP]
      simp only [Nat.zero_add]
      linarith
    refine ⟨hxle, by linarith, ?_, ?_⟩
    · -- y upper bound
      cases startFromMinY
      · -- start from max, yDir = -1 : y ≤ startY
        have hyDir : P.yDir = -1 := by rw [hP]; rfl
        have hsyP : P.startY = faceHeight / 2 - d.hexHeight / 2 := by rw [hP]; rfl
        have hprod : (0 : F) ≤ (row' : F) * P.rowSpacing := by
          have hc : (0 : F) ≤ (row' : F) := by exact_mod_cast hrow0
          exact mul_nonneg hc (hrsP ▸ hrspos.le)
        rw [hsyP, hyDir, mul_neg_one]
        linarith
      · -- start from min, yDir = 1 : row check bounds y from above
        have hyDir : P.yDir = 1 := by rw [hP]; rfl
        have h := hup (by rw [hyDir]; norm_num)
        rw [hhhP, hmaxYP] at h
        linarith
    · -- y lower bound
      cases startFromMinY
      · have hyDir : P.yDir = -1 := by rw [hP]; rfl
        have h := hdown (by rw [hyDir]; norm_num)
        rw [hhhP, hminYP] at h
        linarith
      · have hyDir : P.yDir = 1 := by rw [hP]; rfl
        have hsyP : P.startY = -faceHeight / 2 + d.hexHeight / 2 := by rw [hP]; rfl
        have hprod : (0 : F) ≤ (row' : F) * P.rowSpacing := by
          have hc : (0 : F) ≤ (row' : F) := by exact_mod_cast hrow0
          exact mul_nonneg hc (hrsP ▸ hrspos.le)
        rw [hsyP, hyDir, mul_one]
        linarith

/-- C8 witness: for the flat-top 2×2 face with one hexagon (`margin = 0`,
over `ℝ`), the emitted center `(0, -1 + √3/2)` satisfies all four in-face
bounds, by `fullMode_bounds`. -/
theorem fullMode_bounds_witness :
    ((0 : ℝ) + 2 / 2 ≤ 2 / 2 + 0.001) ∧
    (-(2 : ℝ) / 2 - 0.001 ≤ 0 - 2 / 2) ∧
    (-1 + Real.sqrt 3 / 2 + Real.sqrt 3 / 2 ≤ 2 / 2 + 0.001) ∧
    (-(2 : ℝ) / 2 - 0.001 ≤ -1 + Real.sqrt 3 / 2 - Real.sqrt 3 / 2) := by
  have hs3 : (0 : ℝ) < Real.sqrt 3 := Real.sqrt_pos.mpr (by norm_num)
  exact (fullMode_bounds (Real.sqrt 3) 2 2 0 1 true true _ 2 0 _ hs3 (by norm_num)
    (by norm_num) demoDims demoRows).2.2 ((0 : ℝ), -1 + Real.sqrt 3 / 2) (by simp)

/-! ### Termination of the unbounded loops (C10) -/

lemma partialCols_succ (P : TileParams F) (y xOffset : F) (fuel col : ℕ) :
    partialCols P y xOffset (fuel + 1) col =
      if P.startX + (col : F) * P.colSpacing + xOffset - P.hexHalfWidth > P.maxX + 0.001
      then some []
      else (partialCols P y xOffset fuel (col + 1)).map
        ((P.startX + (col : F) * P.colSpacing + xOffset, y) :: ·) := rfl

lemma genRows_succ (P : TileParams F) (cfuel rfuel : ℕ) (row : ℤ) :
    genRows P cfuel (rfuel + 1) row =
      if P.allowPartial then
        if 0 < P.yDir then
          if P.startY + (row : F) * P.rowSpacing * P.yDir - P.hexHalfHeight
              > P.maxY + 0.001 then some []
          else if P.startY + (row : F) * P.rowSpacing * P.yDir + P.hexHalfHeight
              < P.minY - 0.001 then genRows P cfuel rfuel (row + 1)
          else
            match partialRow P cfuel (P.startY + (row : F) * P.rowSpacing * P.yDir)
                (if row.natAbs % 2 = 1 then P.rowXOffset else 0) with
            | none => none
            | some r => (genRows P cfuel rfuel (row + 1)).map (r :: ·)
        else
          if P.startY + (row : F) * P.rowSpacing * P.yDir + P.hexHalfHeight
              < P.minY - 0.001 then some []
          else if P.startY + (row : F) * P.rowSpacing * P.yDir - P.hexHalfHeight
              > P.maxY + 0.001 then genRows P cfuel rfuel (row + 1)
          else
            match partialRow P cfuel (P.startY + (row : F) * P.rowSpacing * P.yDir)
                (if row.natAbs % 2 = 1 then P.rowXOffset else 0) with
            | none => none
            | some r => (genRows P cfuel rfuel (row + 1)).map (r :: ·)
      else
        if 0 < P.yDir then
          if P.startY + (row : F) * P.rowSpacing * P.yDir + P.hexHalfHeight
              > P.maxY + 0.001 then some []
          else (genRows P cfuel rfuel (row + 1)).map
            (fullRow P (P.startY + (row : F) * P.rowSpacing * P.yDir)
              (if row.natAbs % 2 = 1 then P.rowXOffset else 0) :: ·)
        else
          if P.startY + (row : F) * P.rowSpacing * P.yDir - P.hexHalfHeight
              < P.minY - 0.001 then some []
          else (genRows P cfuel rfuel (row + 1)).map
            (fullRow P (P.startY + (row : F) * P.rowSpacing * P.yDir)
              (if row.natAbs % 2 = 1 then P.rowXOffset else 0) :: ·) := rfl

lemma partialCols_isSome (P : TileParams F) (y xOffset : F) :
    ∀ (n col : ℕ), P.maxX + 0.001 + P.hexHalfWidth
        < P.startX + (col : F) * P.colSpacing + xOffset + (n : F) * P.colSpacing →
      (partialCols P y xOffset (n + 1) col).isSome := by
  intro n
  induction n with
  | zero =>
    intro col h
    push_cast at h
    rw [partialCols_succ, if_pos (by linarith)]
    rfl
  | succ k ih =>
    intro col h
    rw [partialCols_succ]
    split_ifs with hbreak
    · rfl
    · have hnext : P.maxX + 0.001 + P.hexHalfWidth
          < P.startX + ((col + 1 : ℕ) : F) * P.colSpacing + xOffset
            + (k : F) * P.colSpacing := by
        push_cast at h ⊢
        linarith
      rcases Option.isSome_iff_exists.mp (ih (col + 1) hnext) with ⟨l, hl⟩
      rw [hl]
      rfl

lemma partialRow_isSome (P : TileParams F) (cfuel : ℕ) (y xOffset : F)
    (h : (partialCols P y xOffset cfuel 0).isSome) :
    (partialRow P cfuel y xOffset).isSome := by
  unfold partialRow
  rcases Option.isSome_iff_exists.mp h with ⟨l, hl⟩
  rw [hl]
  rfl

lemma genRows_isSome_up (P : TileParams F) (cfuel : ℕ) (hdir : 0 < P.yDir)
    (hhh : 0 ≤ P.hexHalfHeight)
    (hcols : ∀ y : F, (partialCols P y 0 cfuel 0).isSome ∧
      (partialCols P y P.rowXOffset cfuel 0).isSome) :
    ∀ (n : ℕ) (row : ℤ),
      P.maxY + 0.001
        < P.startY + ((row + n : ℤ) : F) * P.rowSpacing * P.yDir - P.hexHalfHeight →
      (genRows P cfuel (n + 1) row).isSome := by
  intro n
  induction n with
  | zero =>
    intro row h
    push_cast at h
    norm_num at h
    rw [genRows_succ]
    by_cases hap : P.allowPartial = true
    · rw [if_pos hap, if_pos hdir, if_pos (by linarith)]
      rfl
    · rw [if_neg hap, if_pos hdir, if_pos (by linarith)]
      rfl
  | succ k ih =>
    intro row h
    have hnext : P.maxY + 0.001
        < P.startY + ((row + 1 + (k : ℤ) : ℤ) : F) * P.rowSpacing * P.yDir
          - P.hexHalfHeight := by
      push_cast at h ⊢
      have heq : ((row : F) + 1 + (k : F)) * P.rowSpacing * P.yDir
          = ((row : F) + ((k : F) + 1)) * P.rowSpacing * P.yDir := by ring
      rw [heq]
      linarith
    have hrec := ih (row + 1) hnext
    rcases Option.isSome_iff_exists.mp hrec with ⟨rest, hrest⟩
    rw [genRows_succ]
    by_cases hap : P.allowPartial = true
    · rw [if_pos hap, if_pos hdir]
      by_cases hstop : P.startY + (row : F) * P.rowSpacing * P.yDir - P.hexHalfHeight
          > P.maxY + 0.001
      · rw [if_pos hstop]; rfl
      · rw [if_neg hstop]
        by_cases hskip : P.startY + (row : F) * P.rowSpacing * P.yDir + P.hexHalfHeight
            < P.minY - 0.001
        · rw [if_pos hskip, hrest]; rfl
        · rw [if_neg hskip]
          have hcase : (partialCols P (P.startY + (row : F) * P.rowSpacing * P.yDir)
              (if row.natAbs % 2 = 1 then P.rowXOffset else 0) cfuel 0).isSome := by
            split_ifs
            · exact (hcols _).2
            · exact (hcols _).1
          rcases Option.isSome_iff_exists.mp
            (partialRow_isSome P cfuel (P.startY + (row : F) * P.rowSpacing * P.yDir)
              (if row.natAbs % 2 = 1 then P.rowXOffset else 0) hcase) with ⟨l, hl⟩
          simp only [hl, hrest]
          rfl
    · rw [if_neg hap, if_pos hdir]
      by_cases hstop : P.startY + (row : F) * P.rowSpacing * P.yDir + P.hexHalfHeight
          > P.maxY + 0.001
      · rw [if_pos hstop]; rfl
      · rw [if_neg hstop, hrest]; rfl

lemma genRows_isSome_down (P : TileParams F) (cfuel : ℕ) (hdir : ¬ 0 < P.yDir)
    (hhh : 0 ≤ P.hexHalfHeight)
    (hcols : ∀ y : F, (partialCols P y 0 cfuel 0).isSome ∧
      (partialCols P y P.rowXOffset cfuel 0).isSome) :
    ∀ (n : ℕ) (row : ℤ),
      P.startY + ((row + n : ℤ) : F) * P.rowSpacing * P.yDir + P.hexHalfHeight
        < P.minY - 0.001 →
      (genRows P cfuel (n + 1) row).isSome := by
  intro n
  induction n with
  | zero =>
    intro row h
    push_cast at h
    norm_num at h
    rw [genRows_succ]
    by_cases hap : P.allowPartial = true
    · rw [if_pos hap, if_neg hdir, if_pos (by linarith)]
      rfl
    · rw [if_neg hap, if_neg hdir, if_pos (by linarith)]
      rfl
  | succ k ih =>
    intro row h
    have hnext : P.startY + ((row + 1 + (k : ℤ) : ℤ) : F) * P.rowSpacing * P.yDir
        + P.hexHalfHeight < P.minY - 0.001 := by
      push_cast at h ⊢
      have heq : ((row : F) + 1 + (k : F)) * P.rowSpacing * P.yDir
          = ((row : F) + ((k : F) + 1)) * P.rowSpacing * P.yDir := by ring
      rw [heq]
      linarith
    have hrec := ih (row + 1) hnext
    rcases Option.isSome_iff_exists.mp hrec with ⟨rest, hrest⟩
    rw [genRows_succ]
    by_cases hap : P.allowPartial = true
    · rw [if_pos hap, if_neg hdir]
      by_cases hstop : P.startY + (row : F) * P.rowSpacing * P.yDir + P.hexHalfHeight
          < P.minY - 0.001
      · rw [if_pos hstop]; rfl
      · rw [if_neg hstop]
        by_cases hskip : P.startY + (row : F) * P.rowSpacing * P.yDir - P.hexHalfHeight
            > P.maxY + 0.001
        · rw [if_pos hskip, hrest]; rfl
        · rw [if_neg hskip]
          have hcase : (partialCols P (P.startY + (row : F) * P.rowSpacing * P.yDir)
              (if row.natAbs % 2 = 1 then P.rowXOffset else 0) cfuel 0).isSome := by
            split_ifs
            · exact (hcols _).2
            · exact (hcols _).1
          rcases Option.isSome_iff_exists.mp
            (partialRow_isSome P cfuel (P.startY + (row : F) * P.rowSpacing * P.yDir)
              (if row.natAbs % 2 = 1 then P.rowXOffset else 0) hcase) with ⟨l, hl⟩
          simp only [hl, hrest]
          rfl
    · rw [if_neg hap, if_neg hdir]
      by_cases hstop : P.startY + (row : F) * P.rowSpacing * P.yDir - P.hexHalfHeight
          < P.minY - 0.001
      · rw [if_pos hstop]; rfl
      · rw [if_neg hstop, hrest]; rfl

/-- C10: on every input where the solver succeeds (`faceWidth, faceHeight > 0`,
`numX ≥ 1`, `margin ≥ 0`), the center-generation loops terminate in both full
and partial mode: `rowSpacing` and `colSpacing` are strictly positive, so
some finite fuel makes `calculateHexLayout` return a result (the fuel-indexed
run is not `none`). -/
theorem layout_terminates [Archimedean F] (s3 faceWidth faceHeight margin : F) (numX : ℕ)
    (pointyTop startFromMinY allowPartial : Bool) (d : HexDims F)
    (hs3 : 0 < s3) (hn : 1 ≤ numX) (hm : 0 ≤ margin) (hfw : 0 < faceWidth)
    (hfh : 0 < faceHeight)
    (hd : solveDims s3 faceWidth numX margin pointyTop = .ok d) :
    ∃ rfuel cfuel out,
      calculateHexLayout s3 faceWidth faceHeight numX margin pointyTop startFromMinY
        allowPartial rfuel cfuel = some out := by
  obtain ⟨hrpos, hwpos, hhpos, hrspos, hcspos⟩ := dims_pos hs3 hm hd
  set P := layoutParams faceWidth faceHeight numX d startFromMinY allowPartial with hP
  have hcsP : P.colSpacing = d.colSpacing := by rw [hP]; rfl
  have hrsP : P.rowSpacing = d.rowSpacing := by rw [hP]; rfl
  have hhhP : P.hexHalfHeight = d.hexHeight / 2 := by rw [hP]; rfl
  have hrxoP : P.rowXOffset = d.colSpacing / 2 := by rw [hP]; rfl
  have hcsPos : 0 < P.colSpacing := by rw [hcsP]; exact hcspos
  have hrsPos : 0 < P.rowSpacing := by rw [hrsP]; exact hrspos
  have hhhPos : 0 ≤ P.hexHalfHeight := by rw [hhhP]; linarith
  have hrxoPos : 0 ≤ P.rowXOffset := by rw [hrxoP]; linarith
  obtain ⟨N, hN⟩ :=
    exists_nat_gt ((P.maxX + 0.001 + P.hexHalfWidth - P.startX) / P.colSpacing)
  have hNcs : P.maxX + 0.001 + P.hexHalfWidth - P.startX < (N : F) * P.colSpacing :=
    (div_lt_iff hcsPos).mp hN
  have hcols : ∀ y : F, (partialCols P y 0 (N + 1) 0).isSome ∧
      (partialCols P y P.rowXOffset (N + 1) 0).isSome := by
    intro y
    constructor <;> apply partialCols_isSome <;> push_cast <;> linarith
  have hfr : (-1 : ℤ) ≤ (if allowPartial then -1 else 0 : ℤ) := by
    split_ifs <;> omega
  set firstRow : ℤ := if allowPartial then -1 else 0 with hfrdef
  cases startFromMinY
  · -- start from max: yDir = -1
    have hdir : P.yDir = -1 := by rw [hP]; rfl
    obtain ⟨M, hM⟩ :=
      exists_nat_gt ((P.startY + P.hexHalfHeight - P.minY + 0.001) / P.rowSpacing + 1)
    have hMrs : P.startY + P.hexHalfHeight - P.minY + 0.001 < ((M : F) - 1) * P.rowSpacing := by
      have h1 : (P.startY + P.hexHalfHeight - P.minY + 0.001) / P.rowSpacing < (M : F) - 1 := by
        linarith
      calc P.startY + P.hexHalfHeight - P.minY + 0.001
          = (P.startY + P.hexHalfHeight - P.minY + 0.001) / P.rowSpacing * P.rowSpacing := by
            field_simp
        _ < ((M : F) - 1) * P.rowSpacing := by
            exact mul_lt_mul_of_pos_right h1 hrsPos
  -- growth is downward, so the stop condition is reached below the face
    have hcond : P.startY + ((firstRow + M : ℤ) : F) * P.rowSpacing * P.yDir
        + P.hexHalfHeight < P.minY - 0.001 := by
      have hfrF : (-1 : F) ≤ ((firstRow : ℤ) : F) := by exact_mod_cast hfr
      have hge : ((M : F) - 1) * P.rowSpacing ≤ ((firstRow : F) + (M : F)) * P.rowSpacing := by
        apply mul_le_mul_of_nonneg_right ?_ hrsPos.le
        linarith
      rw [hdir, mul_neg_one]
      push_cast
      linarith
    have hsome := genRows_isSome_down P (N + 1) (by rw [hdir]; norm_num) hhhPos hcols M
      firstRow hcond
    rcases Option.isSome_iff_exists.mp hsome with ⟨rows, hrows⟩
    refine ⟨M + 1, N + 1, .ok (d.radius, rows.flatten, pointyTop), ?_⟩
    simp only [calculateHexLayout, hd, ← hP, ← hfrdef, hrows]
  · -- start from min: yDir = 1
    have hdir : P.yDir = 1 := by rw [hP]; rfl
    obtain ⟨M, hM⟩ :=
      exists_nat_gt ((P.maxY + 0.001 + P.hexHalfHeight - P.startY) / P.rowSpacing + 1)
    have hMrs : P.maxY + 0.001 + P.hexHalfHeight - P.startY < ((M : F) - 1) * P.rowSpacing := by
      have h1 : (P.maxY + 0.001 + P.hexHalfHeight - P.startY) / P.rowSpacing < (M : F) - 1 := by
        linarith
      calc P.maxY + 0.001 + P.hexHalfHeight - P.startY
          = (P.maxY + 0.001 + P.hexHalfHeight - P.startY) / P.rowSpacing * P.rowSpacing := by
            field_simp
        _ < ((M : F) - 1) * P.rowSpacing := by
            exact mul_lt_mul_of_pos_right h1 hrsPos
    have hcond : P.maxY + 0.001
        < P.startY + ((firstRow + M : ℤ) : F) * P.rowSpacing * P.yDir - P.hexHalfHeight := by
      have hfrF : (-1 : F) ≤ ((firstRow : ℤ) : F) := by exact_mod_cast hfr
      have hge : ((M : F) - 1) * P.rowSpacing ≤ ((firstRow : F) + (M : F)) * P.rowSpacing := by
        apply mul_le_mul_of_nonneg_right ?_ hrsPos.le
        linarith
      rw [hdir, mul_one]
      push_cast
      linarith
    have hsome := genRows_isSome_up P (N + 1) (by rw [hdir]; norm_num) hhhPos hcols M
      firstRow hcond
    rcases Option.isSome_iff_exists.mp hsome with ⟨rows, hrows⟩
    refine ⟨M + 1, N + 1, .ok (d.radius, rows.flatten, pointyTop), ?_⟩
    simp only [calculateHexLayout, hd, ← hP, ← hfrdef, hrows]

/-- C10 witness: on the flat-top 2×2 face with one hexagon, `margin = 0` and
partial mode enabled (over `ℝ`), some fuel suffices for the generation loops,
by `layout_terminates`. -/
theorem layout_terminates_witness :
    ∃ rfuel cfuel out,
      calculateHexLayout (Real.sqrt 3) (2 : ℝ) 2 1 0 true true true rfuel cfuel = some out :=
  layout_terminates (Real.sqrt 3) 2 2 0 1 true true true _
    (Real.sqrt_pos.mpr (by norm_num)) (by norm_num) (by norm_num) (by norm_num) (by norm_num)
    demoDims

/-! ### The concrete 10×10 pointy-top scenario (C3) -/

lemma scenario_dims (s3 : F) (hsq : s3 ^ 2 = 3) (hs3 : 0 < s3) :
    solveDims s3 (10 : F) 5 0 false = .ok ⟨2 / s3, 2, 4 / s3, s3, 2⟩ := by
  have hne : s3 ≠ 0 := ne_of_gt hs3
  simp only [solveDims, Bool.false_eq_true, if_false]
  rw [if_neg (by norm_num)]
  norm_num [HexDims.mk.injEq]
  constructor
  · ring
  · field_simp
    nlinarith

lemma scenario_rows (s3 : F) (hsq : s3 ^ 2 = 3) (hs3 : 0 < s3) :
    genRows (layoutParams (10 : F) 10 5 ⟨2 / s3, 2, 4 / s3, s3, 2⟩ true false) 0 6 0 =
      some [[(-4, -5 + 2 / s3), (-2, -5 + 2 / s3), (0, -5 + 2 / s3), (2, -5 + 2 / s3), (4, -5 + 2 / s3)],
        [(-3, -5 + 2 / s3 + s3), (-1, -5 + 2 / s3 + s3), (1, -5 + 2 / s3 + s3), (3, -5 + 2 / s3 + s3)],
        [(-4, -5 + 2 / s3 + 2 * s3), (-2, -5 + 2 / s3 + 2 * s3), (0, -5 + 2 / s3 + 2 * s3), (2, -5 + 2 / s3 + 2 * s3), (4, -5 + 2 / s3 + 2 * s3)],
        [(-3, -5 + 2 / s3 + 3 * s3), (-1, -5 + 2 / s3 + 3 * s3), (1, -5 + 2 / s3 + 3 * s3), (3, -5 + 2 / s3 + 3 * s3)],
        [(-4, -5 + 2 / s3 + 4 * s3), (-2, -5 + 2 / s3 + 4 * s3), (0, -5 + 2 / s3 + 4 * s3), (2, -5 + 2 / s3 + 4 * s3), (4, -5 + 2 / s3 + 4 * s3)]] := by
  have hne : s3 ≠ 0 := ne_of_gt hs3
  have h17 : (1.7 : F) < s3 := by nlinarith
  have h18 : s3 < 1.8 := by nlinarith
  have hlo : (1.1 : F) < 2 / s3 := by rw [lt_div_iff hs3]; nlinarith
  have hhi : (2 : F) / s3 < 1.2 := by rw [div_lt_iff hs3]; nlinarith
  have hPeq : layoutParams (10 : F) 10 5 ⟨2 / s3, 2, 4 / s3, s3, 2⟩ true false =
      ⟨false, 5, s3, 2, 1, 1, 2 / s3, -5, 5, -5, 5, -4, -5 + 2 / s3, 1⟩ := by
    simp only [layoutParams, TileParams.mk.injEq, if_true]
    norm_num
    ring
  rw [hPeq]
  set P : TileParams F := ⟨false, 5, s3, 2, 1, 1, 2 / s3, -5, 5, -5, 5, -4, -5 + 2 / s3, 1⟩
    with hPdef
  have hap : P.allowPartial = false := by rw [hPdef]
  have hdir : 0 < P.yDir := by rw [hPdef]; norm_num
  have hnum : P.numX = 5 := by rw [hPdef]
  have hsx : P.startX = -4 := by rw [hPdef]
  have hsy : P.startY = -5 + 2 / s3 := by rw [hPdef]
  have hrs : P.rowSpacing = s3 := by rw [hPdef]
  have hyd : P.yDir = 1 := by rw [hPdef]
  have hcs : P.colSpacing = 2 := by rw [hPdef]
  have hhw : P.hexHalfWidth = 1 := by rw [hPdef]
  have hhh : P.hexHalfHeight = 2 / s3 := by rw [hPdef]
  have hmaxx : P.maxX = 5 := by rw [hPdef]
  have hmaxy : P.maxY = 5 := by rw [hPdef]
  have hrxo : P.rowXOffset = 1 := by rw [hPdef]
  have hy : ∀ k : ℤ, P.startY + (k : F) * P.rowSpacing * P.yDir = -5 + 2 / s3 + (k : F) * s3 := by
    intro k
    rw [hsy, hrs, hyd, mul_one]
  have hcond : ∀ r : ℤ, (r : F) ≤ 4 →
      P.startY + (r : F) * P.rowSpacing * P.yDir + P.hexHalfHeight ≤ P.maxY + 0.001 := by
    intro r hr
    rw [hsy, hrs, hyd, hhh, hmaxy, mul_one]
    have h1 : (r : F) * s3 ≤ 4 * s3 := mul_le_mul_of_nonneg_right hr hs3.le
    linarith
  have hstop5 : P.maxY + 0.001 < P.startY + ((5 : ℤ) : F) * P.rowSpacing * P.yDir
      + P.hexHalfHeight := by
    rw [hsy, hrs, hyd, hhh, hmaxy, mul_one]
    push_cast
    linarith
  have hrowEven : ∀ y : F, fullRow P y 0 = [(-4, y), (-2, y), (0, y), (2, y), (4, y)] := by
    intro y
    norm_num [fullRow, fullCols, hsx, hcs, hhw, hmaxx, hnum]
  have hrowOdd : ∀ y : F, fullRow P y P.rowXOffset = [(-3, y), (-1, y), (1, y), (3, y)] := by
    intro y
    norm_num [fullRow, fullCols, hsx, hcs, hhw, hmaxx, hnum, hrxo]
  have g5 : genRows P 0 1 5 = some [] :=
    genRows_full_stop_up P 0 0 5 hap hdir hstop5
  have g4 : genRows P 0 2 4 = some [[(-4, -5 + 2 / s3 + 4 * s3), (-2, -5 + 2 / s3 + 4 * s3), (0, -5 + 2 / s3 + 4 * s3), (2, -5 + 2 / s3 + 4 * s3), (4, -5 + 2 / s3 + 4 * s3)]] := by
    have step := genRows_full_cont_up P 0 1 4 hap hdir (hcond 4 (by norm_num))
    rw [step, show genRows P 0 1 (4 + 1) = some [] from g5]
    simp only [Option.map_some']
    rw [show (if (4 : ℤ).natAbs % 2 = 1 then P.rowXOffset else 0) = 0 from by norm_num,
      hrowEven, hy 4]
    norm_num
  have g3 : genRows P 0 3 3 = some [[(-3, -5 + 2 / s3 + 3 * s3), (-1, -5 + 2 / s3 + 3 * s3), (1, -5 + 2 / s3 + 3 * s3), (3, -5 + 2 / s3 + 3 * s3)],
      [(-4, -5 + 2 / s3 + 4 * s3), (-2, -5 + 2 / s3 + 4 * s3), (0, -5 + 2 / s3 + 4 * s3), (2, -5 + 2 / s3 + 4 * s3), (4, -5 + 2 / s3 + 4 * s3)]] := by
    have step := genRows_full_cont_up P 0 2 3 hap hdir (hcond 3 (by norm_num))
    rw [step, show genRows P 0 2 (3 + 1) = some [[(-4, -5 + 2 / s3 + 4 * s3), (-2, -5 + 2 / s3 + 4 * s3), (0, -5 + 2 / s3 + 4 * s3), (2, -5 + 2 / s3 + 4 * s3), (4, -5 + 2 / s3 + 4 * s3)]] from g4]
    simp only [Option.map_some']
    rw [show (if (3 : ℤ).natAbs % 2 = 1 then P.rowXOffset else 0) = P.rowXOffset from by
      norm_num, hrowOdd, hy 3]
    norm_num
  have g2 : genRows P 0 4 2 = some [[(-4, -5 + 2 / s3 + 2 * s3), (-2, -5 + 2 / s3 + 2 * s3), (0, -5 + 2 / s3 + 2 * s3), (2, -5 + 2 / s3 + 2 * s3), (4, -5 + 2 / s3 + 2 * s3)],
      [(-3, -5 + 2 / s3 + 3 * s3), (-1, -5 + 2 / s3 + 3 * s3), (1, -5 + 2 / s3 + 3 * s3), (3, -5 + 2 / s3 + 3 * s3)],
      [(-4, -5 + 2 / s3 + 4 * s3), (-2, -5 + 2 / s3 + 4 * s3), (0, -5 + 2 / s3 + 4 * s3), (2, -5 + 2 / s3 + 4 * s3), (4, -5 + 2 / s3 + 4 * s3)]] := by
    have step := genRows_full_cont_up P 0 3 2 hap hdir (hcond 2 (by norm_num))
    rw [step, show genRows P 0 3 (2 + 1) = some [[(-3, -5 + 2 / s3 + 3 * s3), (-1, -5 + 2 / s3 + 3 * s3), (1, -5 + 2 / s3 + 3 * s3), (3, -5 + 2 / s3 + 3 * s3)],
      [(-4, -5 + 2 / s3 + 4 * s3), (-2, -5 + 2 / s3 + 4 * s3), (0, -5 + 2 / s3 + 4 * s3), (2, -5 + 2 / s3 + 4 * s3), (4, -5 + 2 / s3 + 4 * s3)]] from g3]
    simp only [Option.map_some']
    rw [show (if (2 : ℤ).natAbs % 2 = 1 then P.rowXOffset else 0) = 0 from by norm_num,
      hrowEven, hy 2]
    norm_num
  have g1 : genRows P 0 5 1 = some [[(-3, -5 + 2 / s3 + s3), (-1, -5 + 2 / s3 + s3), (1, -5 + 2 / s3 + s3), (3, -5 + 2 / s3 + s3)],
      [(-4, -5 + 2 / s3 + 2 * s3), (-2, -5 + 2 / s3 + 2 * s3), (0, -5 + 2 / s3 + 2 * s3), (2, -5 + 2 / s3 + 2 * s3), (4, -5 + 2 / s3 + 2 * s3)],
      [(-3, -5 + 2 / s3 + 3 * s3), (-1, -5 + 2 / s3 + 3 * s3), (1, -5 + 2 / s3 + 3 * s3), (3, -5 + 2 / s3 + 3 * s3)],
      [(-4, -5 + 2 / s3 + 4 * s3), (-2, -5 + 2 / s3 + 4 * s3), (0, -5 + 2 / s3 + 4 * s3), (2, -5 + 2 / s3 + 4 * s3), (4, -5 + 2 / s3 + 4 * s3)]] := by
    have step := genRows_full_cont_up P 0 4 1 hap hdir (hcond 1 (by norm_num))
    rw [step, show genRows P 0 4 (1 + 1) = some [[(-4, -5 + 2 / s3 + 2 * s3), (-2, -5 + 2 / s3 + 2 * s3), (0, -5 + 2 / s3 + 2 * s3), (2, -5 + 2 / s3 + 2 * s3), (4, -5 + 2 / s3 + 2 * s3)],
      [(-3, -5 + 2 / s3 + 3 * s3), (-1, -5 + 2 / s3 + 3 * s3), (1, -5 + 2 / s3 + 3 * s3), (3, -5 + 2 / s3 + 3 * s3)],
      [(-4, -5 + 2 / s3 + 4 * s3), (-2, -5 + 2 / s3 + 4 * s3), (0, -5 + 2 / s3 + 4 * s3), (2, -5 + 2 / s3 + 4 * s3), (4, -5 + 2 / s3 + 4 * s3)]] from g2]
    simp only [Option.map_some']
    rw [show (if (1 : ℤ).natAbs % 2 = 1 then P.rowXOffset else 0) = P.rowXOffset from by
      norm_num, hrowOdd, hy 1]
    norm_num
  have g0 : genRows P 0 6 0 = some [[(-4, -5 + 2 / s3), (-2, -5 + 2 / s3), (0, -5 + 2 / s3), (2, -5 + 2 / s3), (4, -5 + 2 / s3)],
      [(-3, -5 + 2 / s3 + s3), (-1, -5 + 2 / s3 + s3), (1, -5 + 2 / s3 + s3), (3, -5 + 2 / s3 + s3)],
      [(-4, -5 + 2 / s3 + 2 * s3), (-2, -5 + 2 / s3 + 2 * s3), (0, -5 + 2 / s3 + 2 * s3), (2, -5 + 2 / s3 + 2 * s3), (4, -5 + 2 / s3 + 2 * s3)],
      [(-3, -5 + 2 / s3 + 3 * s3), (-1, -5 + 2 / s3 + 3 * s3), (1, -5 + 2 / s3 + 3 * s3), (3, -5 + 2 / s3 + 3 * s3)],
      [(-4, -5 + 2 / s3 + 4 * s3), (-2, -5 + 2 / s3 + 4 * s3), (0, -5 + 2 / s3 + 4 * s3), (2, -5 + 2 / s3 + 4 * s3), (4, -5 + 2 / s3 + 4 * s3)]] := by
    have step := genRows_full_cont_up P 0 5 0 hap hdir (hcond 0 (by norm_num))
    rw [step, show genRows P 0 5 (0 + 1) = some [[(-3, -5 + 2 / s3 + s3), (-1, -5 + 2 / s3 + s3), (1, -5 + 2 / s3 + s3), (3, -5 + 2 / s3 + s3)],
      [(-4, -5 + 2 / s3 + 2 * s3), (-2, -5 + 2 / s3 + 2 * s3), (0, -5 + 2 / s3 + 2 * s3), (2, -5 + 2 / s3 + 2 * s3), (4, -5 + 2 / s3 + 2 * s3)],
      [(-3, -5 + 2 / s3 + 3 * s3), (-1, -5 + 2 / s3 + 3 * s3), (1, -5 + 2 / s3 + 3 * s3), (3, -5 + 2 / s3 + 3 * s3)],
      [(-4, -5 + 2 / s3 + 4 * s3), (-2, -5 + 2 / s3 + 4 * s3), (0, -5 + 2 / s3 + 4 * s3), (2, -5 + 2 / s3 + 4 * s3), (4, -5 + 2 / s3 + 4 * s3)]] from g1]
    simp only [Option.map_some']
    rw [show (if (0 : ℤ).natAbs % 2 = 1 then P.rowXOffset else 0) = 0 from by norm_num,
      hrowEven, hy 0]
    norm_num
  exact g0

/-- C3 counterexample: for `faceWidth = 10`, `numX = 5`, `margin = 0`,
pointy-top, the solved radius is `2/√3 ≈ 1.1547`, not `1.0` (the claimed
value would require `hexWidth = 2·radius`, but a pointy-top hexagon has
`hexWidth = √3·radius`); consequently the first-row center y is
`-5 + 2/√3`, not `-5 + 1`. -/
theorem scenario_radius_cex :
    (solveDims (Real.sqrt 3) (10 : ℝ) 5 0 false).map HexDims.radius
        = .ok (2 / Real.sqrt 3) ∧
    (2 / Real.sqrt 3 : ℝ) ≠ 1 := by
  have hsq : Real.sqrt 3 ^ 2 = 3 := Real.sq_sqrt (by norm_num)
  have hs3 : (0 : ℝ) < Real.sqrt 3 := Real.sqrt_pos.mpr (by norm_num)
  have hne : Real.sqrt 3 ≠ 0 := ne_of_gt hs3
  obtain ⟨h17, h18⟩ := sqrt3_bounds
  constructor
  · rw [scenario_dims (Real.sqrt 3) hsq hs3]
    rfl
  · intro h
    field_simp at h
    linarith

/-- C3 amended: for `faceWidth = 10`, `faceHeight = 10`, `numX = 5`,
`margin = 0`, pointy-top, `startFromMin = true`, `allowPartial = false`, the
layout returns `radius = 2/√3` (not 1.0), the first-row center y equals
`-5 + 2/√3` (i.e. `-5 + radius`, not `-5 + 1`), and row 0 contains exactly 5
centers. -/
theorem scenario_layout :
    (solveDims (Real.sqrt 3) (10 : ℝ) 5 0 false).map HexDims.radius
        = .ok (2 / Real.sqrt 3) ∧
    genRows (layoutParams (10 : ℝ) 10 5 ⟨2 / Real.sqrt 3, 2, 4 / Real.sqrt 3, Real.sqrt 3, 2⟩
        true false) 0 6 0 =
      some [[(-4, -5 + 2 / Real.sqrt 3), (-2, -5 + 2 / Real.sqrt 3), (0, -5 + 2 / Real.sqrt 3), (2, -5 + 2 / Real.sqrt 3), (4, -5 + 2 / Real.sqrt 3)],
           [(-3, -5 + 2 / Real.sqrt 3 + Real.sqrt 3), (-1, -5 + 2 / Real.sqrt 3 + Real.sqrt 3), (1, -5 + 2 / Real.sqrt 3 + Real.sqrt 3), (3, -5 + 2 / Real.sqrt 3 + Real.sqrt 3)],
           [(-4, -5 + 2 / Real.sqrt 3 + 2 * Real.sqrt 3), (-2, -5 + 2 / Real.sqrt 3 + 2 * Real.sqrt 3), (0, -5 + 2 / Real.sqrt 3 + 2 * Real.sqrt 3), (2, -5 + 2 / Real.sqrt 3 + 2 * Real.sqrt 3), (4, -5 + 2 / Real.sqrt 3 + 2 * Real.sqrt 3)],
           [(-3, -5 + 2 / Real.sqrt 3 + 3 * Real.sqrt 3), (-1, -5 + 2 / Real.sqrt 3 + 3 * Real.sqrt 3), (1, -5 + 2 / Real.sqrt 3 + 3 * Real.sqrt 3), (3, -5 + 2 / Real.sqrt 3 + 3 * Real.sqrt 3)],
           [(-4, -5 + 2 / Real.sqrt 3 + 4 * Real.sqrt 3), (-2, -5 + 2 / Real.sqrt 3 + 4 * Real.sqrt 3), (0, -5 + 2 / Real.sqrt 3 + 4 * Real.sqrt 3), (2, -5 + 2 / Real.sqrt 3 + 4 * Real.sqrt 3), (4, -5 + 2 / Real.sqrt 3 + 4 * Real.sqrt 3)]] ∧
    calculateHexLayout (Real.sqrt 3) (10 : ℝ) 10 5 0 false true false 6 0 =
      some (.ok (2 / Real.sqrt 3,
        [(-4, -5 + 2 / Real.sqrt 3),
        (-2, -5 + 2 / Real.sqrt 3),
        (0, -5 + 2 / Real.sqrt 3),
        (2, -5 + 2 / Real.sqrt 3),
        (4, -5 + 2 / Real.sqrt 3),
        (-3, -5 + 2 / Real.sqrt 3 + Real.sqrt 3),
        (-1, -5 + 2 / Real.sqrt 3 + Real.sqrt 3),
        (1, -5 + 2 / Real.sqrt 3 + Real.sqrt 3),
        (3, -5 + 2 / Real.sqrt 3 + Real.sqrt 3),
        (-4, -5 + 2 / Real.sqrt 3 + 2 * Real.sqrt 3),
        (-2, -5 + 2 / Real.sqrt 3 + 2 * Real.sqrt 3),
        (0, -5 + 2 / Real.sqrt 3 + 2 * Real.sqrt 3),
        (2, -5 + 2 / Real.sqrt 3 + 2 * Real.sqrt 3),
        (4, -5 + 2 / Real.sqrt 3 + 2 * Real.sqrt 3),
        (-3, -5 + 2 / Real.sqrt 3 + 3 * Real.sqrt 3),
        (-1, -5 + 2 / Real.sqrt 3 + 3 * Real.sqrt 3),
        (1, -5 + 2 / Real.sqrt 3 + 3 * Real.sqrt 3),
        (3, -5 + 2 / Real.sqrt 3 + 3 * Real.sqrt 3),
        (-4, -5 + 2 / Real.sqrt 3 + 4 * Real.sqrt 3),
        (-2, -5 + 2 / Real.sqrt 3 + 4 * Real.sqrt 3),
        (0, -5 + 2 / Real.sqrt 3 + 4 * Real.sqrt 3),
        (2, -5 + 2 / Real.sqrt 3 + 4 * Real.sqrt 3),
        (4, -5 + 2 / Real.sqrt 3 + 4 * Real.sqrt 3)], false)) ∧
    (([[(-4, -5 + 2 / Real.sqrt 3), (-2, -5 + 2 / Real.sqrt 3), (0, -5 + 2 / Real.sqrt 3), (2, -5 + 2 / Real.sqrt 3), (4, -5 + 2 / Real.sqrt 3)],
       [(-3, -5 + 2 / Real.sqrt 3 + Real.sqrt 3), (-1, -5 + 2 / Real.sqrt 3 + Real.sqrt 3), (1, -5 + 2 / Real.sqrt 3 + Real.sqrt 3), (3, -5 + 2 / Real.sqrt 3 + Real.sqrt 3)],
       [(-4, -5 + 2 / Real.sqrt 3 + 2 * Real.sqrt 3), (-2, -5 + 2 / Real.sqrt 3 + 2 * Real.sqrt 3), (0, -5 + 2 / Real.sqrt 3 + 2 * Real.sqrt 3), (2, -5 + 2 / Real.sqrt 3 + 2 * Real.sqrt 3), (4, -5 + 2 / Real.sqrt 3 + 2 * Real.sqrt 3)],
       [(-3, -5 + 2 / Real.sqrt 3 + 3 * Real.sqrt 3), (-1, -5 + 2 / Real.sqrt 3 + 3 * Real.sqrt 3), (1, -5 + 2 / Real.sqrt 3 + 3 * Real.sqrt 3), (3, -5 + 2 / Real.sqrt 3 + 3 * Real.sqrt 3)],
       [(-4, -5 + 2 / Real.sqrt 3 + 4 * Real.sqrt 3), (-2, -5 + 2 / Real.sqrt 3 + 4 * Real.sqrt 3), (0, -5 + 2 / Real.sqrt 3 + 4 * Real.sqrt 3), (2, -5 + 2 / Real.sqrt 3 + 4 * Real.sqrt 3), (4, -5 + 2 / Real.sqrt 3 + 4 * Real.sqrt 3)]].map
        (List.length (α := ℝ × ℝ))).head? = some 5) := by
  have hsq : Real.sqrt 3 ^ 2 = 3 := Real.sq_sqrt (by norm_num)
  have hs3 : (0 : ℝ) < Real.sqrt 3 := Real.sqrt_pos.mpr (by norm_num)
  have hd := scenario_dims (Real.sqrt 3) hsq hs3
  have hrows := scenario_rows (Real.sqrt 3) hsq hs3
  refine ⟨by rw [hd]; rfl, hrows, ?_, rfl⟩
  simp only [calculateHexLayout, hd, Bool.false_eq_true, if_false, hrows]
  rfl

/-- C4 witness: pointy-top, `faceWidth = 10`, `numX = 2` over `ℝ`: raising the
margin from 0 to 1 strictly decreases the solved radius, from `5/√3` to
`(9/2)/√3`, by `radius_margin_mono`. -/
theorem radius_margin_mono_witness : (9 : ℝ) / 2 / Real.sqrt 3 < 5 / Real.sqrt 3 := by
  have hs3 : (0 : ℝ) < Real.sqrt 3 := Real.sqrt_pos.mpr (by norm_num)
  have hd : solveDims (Real.sqrt 3) (10 : ℝ) 2 1 false =
      .ok ⟨9 / 2 / Real.sqrt 3, 9 / 2, 2 * (9 / 2 / Real.sqrt 3),
        0.75 * (2 * (9 / 2 / Real.sqrt 3)) + 1 * Real.sqrt 3 / 2, 9 / 2 + 1⟩ := by
    simp only [solveDims, Bool.false_eq_true, if_false]
    rw [if_neg (by norm_num)]
    norm_num [HexDims.mk.injEq]
  have hd0 : solveDims (Real.sqrt 3) (10 : ℝ) 2 0 false =
      .ok ⟨5 / Real.sqrt 3, 5, 2 * (5 / Real.sqrt 3),
        0.75 * (2 * (5 / Real.sqrt 3)) + 0 * Real.sqrt 3 / 2, 5 + 0⟩ := by
    simp only [solveDims, Bool.false_eq_true, if_false]
    rw [if_neg (by norm_num)]
    norm_num [HexDims.mk.injEq]
  exact (radius_margin_mono (Real.sqrt 3) 10 1 2 false _ _ hs3 (by norm_num) (by norm_num)
    hd hd0).1 (by norm_num)

end HexPattern
